import Mathlib

set_option maxRecDepth 100000
set_option maxHeartbeats 1600000

/-!
Verification of the vehicle-parking web application (controllers `user.py`,
`admin.py`, `auth.py`, `api.py` and the entity model `models/model.py`).

The entity store is modelled as an explicit record of lists (`DBState`), one
list per table.  Every mutating route handler becomes a function
`DBState → Except E DBState`: the SQLAlchemy session stages all mutations and
applies them at the single `db.session.commit()` call of the handler, so a
handler either returns the fully committed successor state (`Except.ok`) or
aborts with an error leaving the store untouched (`Except.error` carries no
state; a rollback restores the pre-state byte for byte).

Numeric columns declared `Float` in the model (money, hours) are modelled as
exact rationals; Python's `round(x, 2)` is round-half-to-even at two decimal
places (`pyRound2`).  `datetime` values are modelled by `PyDateTime`: a
wall-clock reading in seconds together with an optional timezone offset
(`none` = a naive timestamp, as returned for example by a SQLite round-trip).

Descriptive string columns that no claim touches (addresses, pin codes,
phone numbers, profile data, created/updated audit timestamps) are omitted
from the records; every column that participates in the control flow of the
translated handlers is kept under its source name.
-/

/-! ### Enums (models/model.py) -/

inductive UserRole | ADMIN | USER
deriving DecidableEq, Repr

inductive SpotStatus | AVAILABLE | OCCUPIED
deriving DecidableEq, Repr

inductive ReservationStatus | ACTIVE | COMPLETED
deriving DecidableEq, Repr

inductive PaymentStatus | PENDING | PAID
deriving DecidableEq, Repr

/-! ### Timestamps -/

/-- A Python `datetime`: wall-clock seconds plus an optional timezone offset
(seconds east of UTC).  `tz = none` models a naive timestamp. -/
structure PyDateTime where
  wall : ℚ
  tz : Option ℚ
deriving DecidableEq, Repr

/-- `dt.replace(tzinfo=...)`: reinterpret the wall-clock reading in the given
timezone without moving it. -/
def PyDateTime.replaceTz (dt : PyDateTime) (o : ℚ) : PyDateTime :=
  { dt with tz := some o }

/-- Absolute (UTC) seconds of a timestamp; subtraction of two aware datetimes
in Python is the difference of these. -/
def PyDateTime.toAbs (dt : PyDateTime) : ℚ :=
  dt.wall - dt.tz.getD 0

/-! ### Rounding: Python `round(x, 2)` over exact rationals -/

/-- Round a rational to the nearest integer, ties to even (Python's `round`
with no digits). -/
def roundHalfEvenQ (q : ℚ) : ℤ :=
  let f : ℤ := ⌊q⌋
  let r : ℚ := q - f
  if r < 1/2 then f
  else if 1/2 < r then f + 1
  else if f % 2 = 0 then f else f + 1

/-- Python `round(x, 2)`: round-half-to-even at two decimal places. -/
def pyRound2 (q : ℚ) : ℚ :=
  (roundHalfEvenQ (q * 100) : ℚ) / 100

/-! ### Entity records (models/model.py) -/

/-- `User` (credential columns only; the password hashing primitive is an
external collaborator, so `password_hash` stores the secret it would hash). -/
structure User where
  id : String
  email : String
  password_hash : String
  role : UserRole
  scheduled_delete_at : Option ℚ
  is_active : Bool
deriving DecidableEq, Repr

/-- `User.check_password` (the hash comparison collaborator, modelled as
equality of the stored secret with the supplied one). -/
def User.check_password (u : User) (plain : String) : Bool :=
  u.password_hash == plain

/-- `User.cancel_deletion` (models/model.py line 44). -/
def User.cancel_deletion (u : User) : User :=
  { u with scheduled_delete_at := none, is_active := true }

/-- `ParkingLot` (open/close times in seconds of the day). -/
structure ParkingLot where
  id : ℕ
  prime_location_name : String
  price_per_hour : ℚ
  maximum_number_of_spots : ℤ
  revenue : ℚ
  is_active : Bool
  open_time : ℚ
  close_time : ℚ
deriving DecidableEq, Repr

/-- `ParkingSpot`. -/
structure ParkingSpot where
  id : ℕ
  spot_number : String
  lot_id : ℕ
  status : SpotStatus
  is_covered : Bool
  revenue : ℚ
deriving DecidableEq, Repr

/-- `Vehicle`. -/
structure Vehicle where
  vehicle_number : String
  user_id : String
  fuel_type : String
  brand : String
  model : String
  color : String
deriving DecidableEq, Repr

/-- `ReservedParkingSpot` (`spot_id` nullable: `ondelete='Set NULL'`). -/
structure ReservedParkingSpot where
  id : ℕ
  spot_id : Option ℕ
  user_id : String
  vehicle_number : String
  parking_timestamp : PyDateTime
  leaving_timestamp : Option PyDateTime
  parking_cost_per_hour : ℚ
  status : ReservationStatus
deriving DecidableEq, Repr

/-- `Payment`. -/
structure Payment where
  id : ℕ
  reservation_id : ℕ
  amount : ℚ
  payment_method : String
  payment_status : PaymentStatus
deriving DecidableEq, Repr

/-! ### The entity store -/

/-- One list per table, plus the autoincrement counters of the integer
primary keys. -/
structure DBState where
  users : List User
  parking_lots : List ParkingLot
  parking_spots : List ParkingSpot
  vehicles : List Vehicle
  reservations : List ReservedParkingSpot
  payments : List Payment
  next_lot_id : ℕ
  next_spot_id : ℕ
  next_reservation_id : ℕ
  next_payment_id : ℕ
deriving DecidableEq, Repr

/-- `ParkingLot.query.get(lot_id)`. -/
def DBState.findLot (s : DBState) (lot_id : ℕ) : Option ParkingLot :=
  s.parking_lots.find? (fun l => l.id == lot_id)

/-- `ParkingSpot.query.get(spot_id)`. -/
def DBState.findSpot (s : DBState) (spot_id : ℕ) : Option ParkingSpot :=
  s.parking_spots.find? (fun sp => sp.id == spot_id)

/-- `ReservedParkingSpot.query.get(reservation_id)`. -/
def DBState.findReservation (s : DBState) (reservation_id : ℕ) :
    Option ReservedParkingSpot :=
  s.reservations.find? (fun r => r.id == reservation_id)

/-- `User.query.filter_by(email=...).first()`. -/
def DBState.findUserByEmail (s : DBState) (email : String) : Option User :=
  s.users.find? (fun u => u.email == email)

/-- Stage a field update on the lot row with the given id. -/
def updateLot (ls : List ParkingLot) (lot_id : ℕ) (f : ParkingLot → ParkingLot) :
    List ParkingLot :=
  ls.map (fun l => if l.id == lot_id then f l else l)

/-- Stage a field update on the spot row with the given id. -/
def updateSpot (ls : List ParkingSpot) (spot_id : ℕ)
    (f : ParkingSpot → ParkingSpot) : List ParkingSpot :=
  ls.map (fun sp => if sp.id == spot_id then f sp else sp)

/-- Stage a field update on the reservation row with the given id. -/
def updateReservation (ls : List ReservedParkingSpot) (reservation_id : ℕ)
    (f : ReservedParkingSpot → ReservedParkingSpot) : List ReservedParkingSpot :=
  ls.map (fun r => if r.id == reservation_id then f r else r)

/-- Stage a field update on the user row with the given id. -/
def updateUser (ls : List User) (user_id : String) (f : User → User) :
    List User :=
  ls.map (fun u => if u.id == user_id then f u else u)

/-- ORM nullify on spot deletion: reservations referencing a deleted spot keep
existing with `spot_id = NULL` (`ondelete='Set NULL'`). -/
def nullifySpotRefs (rs : List ReservedParkingSpot) (dead : ℕ → Bool) :
    List ReservedParkingSpot :=
  rs.map (fun r =>
    match r.spot_id with
    | some sid => if dead sid then { r with spot_id := none } else r
    | none => r)

/-- The store right after `create_admin_user` has bootstrapped the single
admin account (models/model.py lines 152-174). -/
def initState : DBState :=
  { users := [{ id := "@sharib123", email := "sharib@gmail.com",
                password_hash := "admin123", role := UserRole.ADMIN,
                scheduled_delete_at := none, is_active := true }]
    parking_lots := [], parking_spots := [], vehicles := []
    reservations := [], payments := []
    next_lot_id := 1, next_spot_id := 1, next_reservation_id := 1
    next_payment_id := 1 }

/-! ### Error taxonomy of the translated handlers -/

inductive ReserveError
  | LotNotFound | LotFull | OutsideOperatingHours | VehicleAlreadyParked
  | SpotNotFound
deriving DecidableEq, Repr

inductive QuoteError | ReservationNotFound
deriving DecidableEq, Repr

inductive PayError
  | ReservationNotFound | SessionExpired | ValidationFailed | SpotMissing
  | LotMissing
deriving DecidableEq, Repr

inductive AdminError
  | NotFound | ValidationFailed | Conflict | PersistenceFailure
deriving DecidableEq, Repr

inductive LoginResult
  | Success (recovered : Bool)
  | InvalidCredentials
  | AccountPermanentlyDeleted
  | AccountInactive
deriving DecidableEq, Repr

/-- Vehicle attribute fields of `ReservedSpotForm`. -/
structure VehicleAttrs where
  fuel_type : String
  brand : String
  model : String
  color : String
deriving DecidableEq, Repr

/-- Python `str.strip()`: drop leading and trailing whitespace. -/
def pyStrip (s : String) : String :=
  ((s.data.dropWhile Char.isWhitespace).reverse.dropWhile
    Char.isWhitespace).reverse.asString

/-- Spot number rendered by `add_parking_lot`: the f-string
`f"{new_lot.id}-{i}"`. -/
def mkSpotNumber (lot_id i : ℕ) : String :=
  toString lot_id ++ "-" ++ toString i

/-- The `[spot.id for spot in lot.parking_spots if spot.status == AVAILABLE]`
list of `reserve_spot` (src/controllers/user.py lines 134-136). -/
def available_spot_ids (s : DBState) (lot_id : ℕ) : List ℕ :=
  (s.parking_spots.filter
    (fun sp => sp.lot_id == lot_id && sp.status == SpotStatus.AVAILABLE)).map
    (fun sp => sp.id)

/-! ### `reserve_spot` (src/controllers/user.py lines 119-256)

The handler serves both the GET that renders the form and the POST that
submits it; the two branches are translated separately.  Loading the
vehicle-brand CSV files is an external lookup that only populates the form
choices and is not modelled. -/

/-- The GET branch of `reserve_spot`: 404 lookup, the available-spot
precheck, then the operating-hours check (lines 181-195).  `random.choice`
picks some member of the available list; which member is irrelevant, so the
translation returns the whole list of candidate ids. -/
def reserve_spot_get (s : DBState) (lot_id : ℕ) (now_time : ℚ) :
    Except ReserveError (List ℕ) :=
  match s.findLot lot_id with
  | none => .error .LotNotFound
  | some lot =>
    if available_spot_ids s lot_id = [] then .error .LotFull
    else if ¬ (lot.open_time ≤ now_time ∧ now_time ≤ lot.close_time) then
      .error .OutsideOperatingHours
    else .ok (available_spot_ids s lot_id)

/-- The POST (`form.validate_on_submit()`) branch of `reserve_spot`
(lines 197-249).  Note three facts of the source that the translation keeps:
the operating-hours check of the GET branch is NOT repeated here; the
submitted `form.spot_id` is written to without re-checking that the spot is
still AVAILABLE or that it belongs to `lot_id`; the `Vehicle` row stores the
stripped vehicle number while the reservation stores it as submitted. -/
def reserve_spot_post (s : DBState) (lot_id : ℕ) (form_spot_id : ℕ)
    (form_user_id form_vehicle_number : String) (attrs : VehicleAttrs)
    (now : PyDateTime) : Except ReserveError DBState :=
  match s.findLot lot_id with
  | none => .error .LotNotFound
  | some lot =>
    if available_spot_ids s lot_id = [] then .error .LotFull
    else if s.reservations.any
        (fun r => r.vehicle_number == form_vehicle_number
          && r.leaving_timestamp.isNone) then
      .error .VehicleAlreadyParked
    else
      match s.findSpot form_spot_id with
      | none => .error .SpotNotFound
      | some _ =>
        .ok { s with
          vehicles :=
            if s.vehicles.any
                (fun v => v.vehicle_number == form_vehicle_number)
            then s.vehicles
            else s.vehicles ++
              [{ vehicle_number := pyStrip form_vehicle_number,
                 user_id := form_user_id, fuel_type := attrs.fuel_type,
                 brand := attrs.brand, model := attrs.model,
                 color := attrs.color }]
          reservations := s.reservations ++
            [{ id := s.next_reservation_id, spot_id := some form_spot_id,
               user_id := form_user_id,
               vehicle_number := form_vehicle_number,
               parking_timestamp := now, leaving_timestamp := none,
               parking_cost_per_hour := lot.price_per_hour,
               status := ReservationStatus.ACTIVE }]
          parking_spots := updateSpot s.parking_spots form_spot_id
            (fun sp => { sp with status := SpotStatus.OCCUPIED,
                                 is_covered := true })
          next_reservation_id := s.next_reservation_id + 1 }

/-! ### `released` (src/controllers/user.py lines 263-301) -/

/-- The figures `released` computes and stores in the session before
redirecting to the payment page. -/
structure ReleaseQuote where
  duration_hours : ℚ
  total_cost : ℚ
deriving DecidableEq, Repr

/-- `released`: quotes duration and cost for a reservation.  A naive stored
`parking_timestamp` is first reinterpreted in IST
(`.replace(tzinfo=IST)`); the handler issues no `db.session.commit()`, so the
store component of the result is the input store. -/
def released (s : DBState) (reservation_id : ℕ) (now : PyDateTime)
    (ist : ℚ) : Except QuoteError (ReleaseQuote × DBState) :=
  match s.findReservation reservation_id with
  | none => .error .ReservationNotFound
  | some r =>
    .ok
      ({ duration_hours := pyRound2
           ((now.toAbs -
             (if r.parking_timestamp.tz = none
              then r.parking_timestamp.replaceTz ist
              else r.parking_timestamp).toAbs) / 3600)
         total_cost := pyRound2
           (pyRound2
             ((now.toAbs -
               (if r.parking_timestamp.tz = none
                then r.parking_timestamp.replaceTz ist
                else r.parking_timestamp).toAbs) / 3600)
            * r.parking_cost_per_hour) },
       s)

/-! ### `make_payment` (src/controllers/user.py lines 304-359) -/

/-- The session keys `released` leaves for `make_payment`
(`temp_leaving_timestamp`, `temp_duration`, `temp_total_cost`). -/
structure PaySession where
  temp_leaving_timestamp : PyDateTime
  temp_duration : ℚ
  temp_total_cost : ℚ
deriving DecidableEq, Repr

/-- The assignment `form.amount.data = total_cost` (line 327): whatever
amount the client POSTed is overwritten with the server-side quoted total
before the field is ever read. -/
def paymentFormAmount (_submitted_amount total_cost : ℚ) : ℚ :=
  total_cost

/-- `make_payment`.  The source performs NO check that the reservation is
still active (`leaving_timestamp` is never inspected); the only guards are
the 404 lookup, the session keys (`KeyError` branch), the form validation
(`DataRequired()` rejects a zero amount) and the attribute accesses
`reservation.parking_spot...` / `lot.revenue` which raise when the
relationship resolves to `None`.  All staged mutations are applied by the
single `db.session.commit()` at line 347. -/
def make_payment (s : DBState) (reservation_id : ℕ)
    (sess : Option PaySession) (submitted_amount : ℚ)
    (payment_method : String) : Except PayError DBState :=
  match s.findReservation reservation_id with
  | none => .error .ReservationNotFound
  | some r =>
    match sess with
    | none => .error .SessionExpired
    | some sess =>
      if paymentFormAmount submitted_amount sess.temp_total_cost = 0 then
        .error .ValidationFailed
      else
        match r.spot_id with
        | none => .error .SpotMissing
        | some spot_id =>
          match s.findSpot spot_id with
          | none => .error .SpotMissing
          | some spot =>
            match s.findLot spot.lot_id with
            | none => .error .LotMissing
            | some _ =>
              .ok { s with
                reservations := updateReservation s.reservations
                  reservation_id (fun r =>
                    { r with
                      leaving_timestamp := some sess.temp_leaving_timestamp
                      status := ReservationStatus.COMPLETED })
                parking_spots := updateSpot s.parking_spots spot_id
                  (fun sp =>
                    { sp with is_covered := false
                              status := SpotStatus.AVAILABLE
                              revenue := sp.revenue + sess.temp_total_cost })
                payments := s.payments ++
                  [{ id := s.next_payment_id,
                     reservation_id := reservation_id,
                     amount := paymentFormAmount submitted_amount
                       sess.temp_total_cost,
                     payment_method := payment_method,
                     payment_status := PaymentStatus.PAID }]
                parking_lots := updateLot s.parking_lots spot.lot_id
                  (fun l => { l with revenue := l.revenue
                                       + sess.temp_total_cost })
                next_payment_id := s.next_payment_id + 1 }

/-! ### `add_parking_lot` (src/controllers/admin.py lines 71-127) -/

/-- The spot rows staged by the loop `for i in range(1, N + 1)` of
`add_parking_lot`, for a lot id and a first autoincrement spot id. -/
def createdSpots (lot_id first_spot_id n : ℕ) : List ParkingSpot :=
  (List.range n).map (fun i =>
    { id := first_spot_id + i,
      spot_number := mkSpotNumber lot_id (i + 1),
      lot_id := lot_id, status := SpotStatus.AVAILABLE,
      is_covered := false, revenue := 0 })

/-- `add_parking_lot`.  `ParkingLotForm` validation: `DataRequired()` plus
`NumberRange(min=1)` on the capacity and `DataRequired()` plus
`NumberRange(min=0)` on the price — `DataRequired` treats the falsy `0.0` as
missing, so the accepted prices are exactly the positive ones.  After the
lot row is flushed, the loop `for i in range(1, N + 1)` stages one AVAILABLE
spot `f"{lot_id}-{i}"` per slot; everything is applied by the single
`db.session.commit()`, and `commit_ok = false` models the
`SQLAlchemyError` branch that rolls the whole unit back. -/
def add_parking_lot (s : DBState) (prime_location_name : String)
    (price_per_hour : ℚ) (maximum_number_of_spots : ℤ)
    (open_time close_time : ℚ) (commit_ok : Bool) :
    Except AdminError DBState :=
  if maximum_number_of_spots < 1 then .error .ValidationFailed
  else if price_per_hour ≤ 0 then .error .ValidationFailed
  else if commit_ok then
    .ok { s with
      parking_lots := s.parking_lots ++
        [{ id := s.next_lot_id, prime_location_name := prime_location_name,
           price_per_hour := price_per_hour,
           maximum_number_of_spots := maximum_number_of_spots,
           revenue := 0, is_active := true,
           open_time := open_time, close_time := close_time }]
      parking_spots := s.parking_spots ++
        createdSpots s.next_lot_id s.next_spot_id
          maximum_number_of_spots.toNat
      next_lot_id := s.next_lot_id + 1
      next_spot_id := s.next_spot_id + maximum_number_of_spots.toNat }
  else .error .PersistenceFailure

/-! ### `delete_parking_lot` (src/controllers/admin.py lines 166-199) -/

/-- `lot.occupied_spots` (models/model.py line 81): the count of OCCUPIED
spots owned by the lot. -/
def occupied_spots (s : DBState) (lot_id : ℕ) : ℕ :=
  (s.parking_spots.filter
    (fun sp => sp.lot_id == lot_id && sp.status == SpotStatus.OCCUPIED)).length

/-- `delete_parking_lot`: refuses while any owned spot is OCCUPIED,
otherwise deletes the lot and cascades to all its spots
(`cascade='all, delete-orphan'`); reservations pointing at the deleted spots
survive with `spot_id` nullified. -/
def delete_parking_lot (s : DBState) (lot_id : ℕ) : Except AdminError DBState :=
  match s.findLot lot_id with
  | none => .error .NotFound
  | some _ =>
    if occupied_spots s lot_id > 0 then .error .Conflict
    else
      .ok { s with
        parking_lots := s.parking_lots.filter (fun l => !(l.id == lot_id))
        parking_spots := s.parking_spots.filter (fun sp => !(sp.lot_id == lot_id))
        reservations := nullifySpotRefs s.reservations
          (fun sid => (s.parking_spots.any
            (fun sp => sp.id == sid && sp.lot_id == lot_id))) }

/-! ### `view_delete_spot` (src/controllers/admin.py lines 218-254) -/

/-- `view_delete_spot`: refuses to delete an OCCUPIED spot; otherwise
decrements the owning lot's capacity counter and deletes the spot. -/
def view_delete_spot (s : DBState) (spot_id : ℕ) : Except AdminError DBState :=
  match s.findSpot spot_id with
  | none => .error .NotFound
  | some spot =>
    if spot.status == SpotStatus.OCCUPIED then .error .Conflict
    else
      .ok { s with
        parking_lots := updateLot s.parking_lots spot.lot_id
          (fun l => { l with
            maximum_number_of_spots := l.maximum_number_of_spots - 1 })
        parking_spots := s.parking_spots.filter (fun sp => !(sp.id == spot_id))
        reservations := nullifySpotRefs s.reservations (fun sid => sid == spot_id) }

/-! ### `ParkingSpotApi` (src/controllers/api.py lines 414-496) -/

/-- The parsed arguments of `ParkingSpotApi.put`; `None` fields are left
untouched by the update loop. -/
structure SpotPutArgs where
  spot_number : Option String
  lot_id : Option ℕ
  status : Option SpotStatus
  is_covered : Option Bool
deriving DecidableEq, Repr

/-- `ParkingSpotApi.put`: writes every non-`None` argument straight onto the
spot row — including `status` — without consulting the reservations table. -/
def api_spot_put (s : DBState) (spot_id : ℕ) (args : SpotPutArgs) :
    Except AdminError DBState :=
  match s.findSpot spot_id with
  | none => .error .NotFound
  | some _ =>
    .ok { s with
      parking_spots := updateSpot s.parking_spots spot_id (fun sp =>
        { sp with
          spot_number := args.spot_number.getD sp.spot_number
          lot_id := args.lot_id.getD sp.lot_id
          status := args.status.getD sp.status
          is_covered := args.is_covered.getD sp.is_covered }) }

/-- `ParkingSpotApi.delete`: deletes the spot with no occupancy check;
reservations pointing at it survive with `spot_id` nullified. -/
def api_spot_delete (s : DBState) (spot_id : ℕ) : Except AdminError DBState :=
  match s.findSpot spot_id with
  | none => .error .NotFound
  | some _ =>
    .ok { s with
      parking_spots := s.parking_spots.filter (fun sp => !(sp.id == spot_id))
      reservations := nullifySpotRefs s.reservations (fun sid => sid == spot_id) }

/-! ### `login` (src/controllers/auth.py lines 84-148) -/

/-- `login`.  With matching credentials on an inactive account: an unexpired
deletion deadline is cancelled (`user.cancel_deletion()` committed) and the
login proceeds; an expired deadline refuses the login; inactive with no
deadline refuses the login.  Refusals and failed credential checks commit
nothing. -/
def login (s : DBState) (email password : String) (now : ℚ) :
    LoginResult × DBState :=
  match s.findUserByEmail email with
  | none => (.InvalidCredentials, s)
  | some user =>
    if user.check_password password then
      if !user.is_active then
        match user.scheduled_delete_at with
        | some d =>
          if now < d then
            (.Success true,
             { s with users := updateUser s.users user.id User.cancel_deletion })
          else (.AccountPermanentlyDeleted, s)
        | none => (.AccountInactive, s)
      else (.Success false, s)
    else (.InvalidCredentials, s)

/-! ### `delete_scheduled_users` (src/controllers/user.py lines 437-455) -/

/-- The sweep's selection predicate: inactive with an expired deadline. -/
def sweepDead (now : ℚ) (u : User) : Bool :=
  !u.is_active &&
    (match u.scheduled_delete_at with
     | some d => decide (d ≤ now)
     | none => false)

/-- `delete_scheduled_users`: permanently removes every selected user,
cascading to their vehicles and reservations
(`cascade='all, delete-orphan'`), and through each removed reservation to
its payment (`ondelete='CASCADE'`). -/
def delete_scheduled_users (s : DBState) (now : ℚ) : DBState :=
  let deadUser := fun uid => s.users.any (fun u => sweepDead now u && u.id == uid)
  let deadRes := s.reservations.filter (fun r => deadUser r.user_id)
  { s with
    users := s.users.filter (fun u => !(sweepDead now u))
    vehicles := s.vehicles.filter (fun v => !(deadUser v.user_id))
    reservations := s.reservations.filter (fun r => !(deadUser r.user_id))
    payments := s.payments.filter
      (fun p => !(deadRes.any (fun r => r.id == p.reservation_id))) }

/-! ### Decidability of handler results -/

instance {ε α : Type} [DecidableEq ε] [DecidableEq α] :
    DecidableEq (Except ε α) := fun
  | .ok a, .ok b =>
    if h : a = b then .isTrue (h ▸ rfl)
    else .isFalse (fun hc => h (Except.ok.inj hc))
  | .error e, .error f =>
    if h : e = f then .isTrue (h ▸ rfl)
    else .isFalse (fun hc => h (Except.error.inj hc))
  | .ok _, .error _ => .isFalse (fun hc => Except.noConfusion hc)
  | .error _, .ok _ => .isFalse (fun hc => Except.noConfusion hc)

/-! ### Reachability: one step per committed handler invocation -/

/-- One committed mutating request (or the background sweep).  Handlers that
abort commit nothing, so only `.ok` results move the store. -/
inductive Step : DBState → DBState → Prop where
  | reserve {s s' lot_id spot_id uid vn attrs now}
      (h : reserve_spot_post s lot_id spot_id uid vn attrs now = .ok s') :
      Step s s'
  | quote {s s' rid now ist q}
      (h : released s rid now ist = .ok (q, s')) : Step s s'
  | pay {s s' rid sess amt m}
      (h : make_payment s rid sess amt m = .ok s') : Step s s'
  | addLot {s s' name price n ot ct}
      (h : add_parking_lot s name price n ot ct true = .ok s') : Step s s'
  | deleteLot {s s' lot_id}
      (h : delete_parking_lot s lot_id = .ok s') : Step s s'
  | deleteSpot {s s' spot_id}
      (h : view_delete_spot s spot_id = .ok s') : Step s s'
  | apiSpotUpd {s s' spot_id args}
      (h : api_spot_put s spot_id args = .ok s') : Step s s'
  | apiSpotDel {s s' spot_id}
      (h : api_spot_delete s spot_id = .ok s') : Step s s'
  | doLogin {s s' email pw now res}
      (h : login s email pw now = (res, s')) : Step s s'
  | sweep {s s' now}
      (h : delete_scheduled_users s now = s') : Step s s'

/-- A store reachable from the bootstrapped initial store. -/
def Reachable (s : DBState) : Prop :=
  Relation.ReflTransGen Step initState s

/-! ### The invariants named by the spec -/

/-- Number of reservations of the given vehicle number with
`leaving_timestamp == null`. -/
def activeFor (s : DBState) (v : String) : ℕ :=
  (s.reservations.filter
    (fun r => r.vehicle_number == v && r.leaving_timestamp.isNone)).length

/-- Per-vehicle exclusivity: at most one active reservation per vehicle
number. -/
def vehicleInv (s : DBState) : Prop :=
  ∀ v, activeFor s v ≤ 1

/-- Number of active reservations referencing the given spot. -/
def activeResOn (s : DBState) (spot_id : ℕ) : ℕ :=
  (s.reservations.filter
    (fun r => r.spot_id == some spot_id && r.leaving_timestamp.isNone)).length

/-- Spot/reservation coupling: a spot is OCCUPIED exactly when one active
reservation references it. -/
def spotInv (s : DBState) : Prop :=
  ∀ sp ∈ s.parking_spots,
    (sp.status = SpotStatus.OCCUPIED ↔ activeResOn s sp.id = 1)

/-- PAID payments recorded for a reservation. -/
def paidPaymentsFor (s : DBState) (reservation_id : ℕ) : List Payment :=
  s.payments.filter
    (fun p => p.reservation_id == reservation_id
      && p.payment_status == PaymentStatus.PAID)

/-! ### Concrete scenario: one lot (price 10/h, 2 spots, open 09:00-17:00),
one vehicle parked, released after 2 h, paid, then the release flow run a
second time on the already-completed reservation. -/

def demoAttrs : VehicleAttrs := ⟨"petrol", "Honda", "City", "red"⟩

/-- IST offset, 5 h 30 min east. -/
def istOff : ℚ := 19800

def now1 : PyDateTime := ⟨100000, some istOff⟩

/-- Two hours after `now1`. -/
def now2 : PyDateTime := ⟨107200, some istOff⟩

/-- Three hours after `now1`. -/
def now3 : PyDateTime := ⟨110800, some istOff⟩

/-- The session `released` stores when quoting reservation 1 at `now2`:
2.00 hours, cost 20.00. -/
def sess1 : PaySession := ⟨now2, 2, 20⟩

/-- The session stored by running `released` AGAIN on the completed
reservation 1 at `now3` (nothing in the source refuses this):
3.00 hours, cost 30.00. -/
def sess2 : PaySession := ⟨now3, 3, 30⟩

/-- Lot 1 of the scenario, with the given accumulated revenue. -/
def demoLotR (rev : ℚ) : ParkingLot :=
  { id := 1, prime_location_name := "Central", price_per_hour := 10,
    maximum_number_of_spots := 2, revenue := rev, is_active := true,
    open_time := 32400, close_time := 61200 }

/-- Spot 1 of lot 1 in the given condition. -/
def demoSpot1 (st : SpotStatus) (cov : Bool) (rev : ℚ) : ParkingSpot :=
  { id := 1, spot_number := "1-1", lot_id := 1, status := st,
    is_covered := cov, revenue := rev }

/-- Spot 2 of lot 1 (never reserved in the scenario). -/
def demoSpot2 : ParkingSpot :=
  { id := 2, spot_number := "1-2", lot_id := 1,
    status := SpotStatus.AVAILABLE, is_covered := false, revenue := 0 }

def vehicleKA01 : Vehicle :=
  { vehicle_number := "KA01", user_id := "@user1", fuel_type := "petrol",
    brand := "Honda", model := "City", color := "red" }

def vehicleKA02 : Vehicle :=
  { vehicle_number := "KA02", user_id := "@user2", fuel_type := "petrol",
    brand := "Honda", model := "City", color := "red" }

/-- Reservation 1 (vehicle "KA01", spot 1, parked at `now1`). -/
def demoRes1 (leaving : Option PyDateTime) (st : ReservationStatus) :
    ReservedParkingSpot :=
  { id := 1, spot_id := some 1, user_id := "@user1",
    vehicle_number := "KA01", parking_timestamp := now1,
    leaving_timestamp := leaving, parking_cost_per_hour := 10, status := st }

/-- Reservation 2 (vehicle "KA02", also spot 1, parked at `now2`). -/
def demoRes2 : ReservedParkingSpot :=
  { id := 2, spot_id := some 1, user_id := "@user2",
    vehicle_number := "KA02", parking_timestamp := now2,
    leaving_timestamp := none, parking_cost_per_hour := 10,
    status := ReservationStatus.ACTIVE }

def demoPay1 : Payment :=
  { id := 1, reservation_id := 1, amount := 20, payment_method := "upi",
    payment_status := PaymentStatus.PAID }

def demoPay2 : Payment :=
  { id := 2, reservation_id := 1, amount := 30, payment_method := "card",
    payment_status := PaymentStatus.PAID }

/-- After `add_parking_lot`: lot 1 with spots 1 and 2, both AVAILABLE. -/
def demo1 : DBState :=
  { initState with
    parking_lots := [demoLotR 0]
    parking_spots := [demoSpot1 SpotStatus.AVAILABLE false 0, demoSpot2]
    next_lot_id := 2, next_spot_id := 3 }

/-- After vehicle "KA01" reserves spot 1 at `now1`. -/
def demo2 : DBState :=
  { demo1 with
    parking_spots := [demoSpot1 SpotStatus.OCCUPIED true 0, demoSpot2]
    vehicles := [vehicleKA01]
    reservations := [demoRes1 none ReservationStatus.ACTIVE]
    next_reservation_id := 2 }

/-- After the payment settles reservation 1. -/
def demo3 : DBState :=
  { demo2 with
    parking_lots := [demoLotR 20]
    parking_spots := [demoSpot1 SpotStatus.AVAILABLE false 20, demoSpot2]
    reservations := [demoRes1 (some now2) ReservationStatus.COMPLETED]
    payments := [demoPay1]
    next_payment_id := 2 }

/-- After a SECOND `make_payment` on the already-completed reservation 1. -/
def demo4 : DBState :=
  { demo3 with
    parking_lots := [demoLotR 50]
    parking_spots := [demoSpot1 SpotStatus.AVAILABLE false 50, demoSpot2]
    reservations := [demoRes1 (some now3) ReservationStatus.COMPLETED]
    payments := [demoPay1, demoPay2]
    next_payment_id := 3 }

/-- After a second `reserve_spot` POST whose form resubmits the already
occupied spot 1 for a different vehicle "KA02" (nothing in the source
re-checks the submitted spot). -/
def demo2b : DBState :=
  { demo2 with
    vehicles := [vehicleKA01, vehicleKA02]
    reservations := [demoRes1 none ReservationStatus.ACTIVE, demoRes2]
    next_reservation_id := 3 }

/-! ### List lemmas for row updates and filters -/

theorem find?_map_ite {α : Type} (p : α → Bool) (f : α → α)
    (hf : ∀ a, p a = true → p (f a) = true) :
    ∀ l : List α,
      (l.map (fun a => if p a then f a else a)).find? p = (l.find? p).map f := by
  intro l
  induction l with
  | nil => simp
  | cons a l ih =>
    by_cases h : p a = true
    · simp only [List.map_cons, h, if_true]
      rw [List.find?_cons_of_pos _ (hf a h), List.find?_cons_of_pos _ h]
      rfl
    · have h' : p a = false := by simpa using h
      simp only [List.map_cons, h', Bool.false_eq_true, if_false]
      rw [List.find?_cons_of_neg _ (by simp [h']), List.find?_cons_of_neg _ (by simp [h'])]
      exact ih

theorem length_filter_map_congr {α : Type} (g : α → α) (p : α → Bool)
    (l : List α) (h : ∀ a ∈ l, p (g a) = p a) :
    ((l.map g).filter p).length = (l.filter p).length := by
  induction l with
  | nil => rfl
  | cons a l ih =>
    have ha := h a (List.mem_cons_self a l)
    have ih' := ih (fun b hb => h b (List.mem_cons_of_mem a hb))
    by_cases hp : p a = true
    · simp only [List.map_cons, List.filter_cons, ha, hp, if_true, List.length_cons, ih']
    · have hp' : p a = false := by simpa using hp
      simp only [List.map_cons, List.filter_cons, ha, hp', Bool.false_eq_true, if_false, ih']

theorem length_filter_map_le {α : Type} (g : α → α) (p : α → Bool)
    (l : List α) (h : ∀ a ∈ l, p (g a) = true → p a = true) :
    ((l.map g).filter p).length ≤ (l.filter p).length := by
  induction l with
  | nil => simp
  | cons a l ih =>
    have ih' := ih (fun b hb => h b (List.mem_cons_of_mem a hb))
    by_cases hg : p (g a) = true
    · have hp := h a (List.mem_cons_self a l) hg
      simp only [List.map_cons, List.filter_cons, hg, hp, if_true, List.length_cons]
      omega
    · have hg' : p (g a) = false := by simpa using hg
      simp only [List.map_cons, List.filter_cons, hg', Bool.false_eq_true, if_false]
      by_cases hp : p a = true
      · simp only [hp, if_true, List.length_cons]; omega
      · have hp' : p a = false := by simpa using hp
        simp only [hp', Bool.false_eq_true, if_false]; exact ih'

theorem length_filter_filter_le {α : Type} (p q : α → Bool) (l : List α) :
    ((l.filter q).filter p).length ≤ (l.filter p).length :=
  ((l.filter_sublist (p := q)).filter p).length_le

theorem length_filter_append_singleton {α : Type} (p : α → Bool) (l : List α)
    (a : α) :
    ((l ++ [a]).filter p).length
      = (l.filter p).length + (if p a then 1 else 0) := by
  by_cases h : p a = true
  · simp [List.filter_append, List.filter_cons, h]
  · have h' : p a = false := by simpa using h
    simp [List.filter_append, List.filter_cons, h']

theorem length_filter_of_any_eq_false {α : Type} (p : α → Bool) (l : List α)
    (h : l.any p = false) : (l.filter p).length = 0 := by
  have : ∀ a ∈ l, ¬ p a = true := by simpa [List.any_eq_false] using h
  simp [List.filter_eq_nil_iff.2 this]

/-! ### Inversion lemmas: what a committed handler result tells us -/

theorem reserve_spot_post_ok_inv {s s' : DBState} {lot_id spot_id : ℕ}
    {uid vn : String} {attrs : VehicleAttrs} {now : PyDateTime}
    (h : reserve_spot_post s lot_id spot_id uid vn attrs now = .ok s') :
    ∃ lot, s.findLot lot_id = some lot ∧
      available_spot_ids s lot_id ≠ [] ∧
      s.reservations.any
        (fun r => r.vehicle_number == vn && r.leaving_timestamp.isNone)
        = false ∧
      (∃ spot, s.findSpot spot_id = some spot) ∧
      s' = { s with
        vehicles :=
          if s.vehicles.any (fun v => v.vehicle_number == vn) then s.vehicles
          else s.vehicles ++
            [{ vehicle_number := pyStrip vn, user_id := uid,
               fuel_type := attrs.fuel_type, brand := attrs.brand,
               model := attrs.model, color := attrs.color }]
        reservations := s.reservations ++
          [{ id := s.next_reservation_id, spot_id := some spot_id,
             user_id := uid, vehicle_number := vn, parking_timestamp := now,
             leaving_timestamp := none,
             parking_cost_per_hour := lot.price_per_hour,
             status := ReservationStatus.ACTIVE }]
        parking_spots := updateSpot s.parking_spots spot_id
          (fun sp => { sp with status := SpotStatus.OCCUPIED,
                               is_covered := true })
        next_reservation_id := s.next_reservation_id + 1 } := by
  unfold reserve_spot_post at h
  split at h
  · exact Except.noConfusion h
  · rename_i lot hlot
    split at h
    · exact Except.noConfusion h
    · rename_i havail
      split at h
      · exact Except.noConfusion h
      · rename_i hany
        split at h
        · exact Except.noConfusion h
        · rename_i spot hspot
          refine ⟨lot, hlot, havail, by simpa using hany, ⟨spot, hspot⟩, ?_⟩
          exact (Except.ok.inj h).symm

theorem make_payment_ok_inv {s s' : DBState} {rid : ℕ}
    {sess : Option PaySession} {amt : ℚ} {m : String}
    (h : make_payment s rid sess amt m = .ok s') :
    ∃ r sessv spot_id spot,
      s.findReservation rid = some r ∧
      sess = some sessv ∧
      sessv.temp_total_cost ≠ 0 ∧
      r.spot_id = some spot_id ∧
      s.findSpot spot_id = some spot ∧
      (∃ lot, s.findLot spot.lot_id = some lot) ∧
      s' = { s with
        reservations := updateReservation s.reservations rid (fun r =>
          { r with leaving_timestamp := some sessv.temp_leaving_timestamp
                   status := ReservationStatus.COMPLETED })
        parking_spots := updateSpot s.parking_spots spot_id (fun sp =>
          { sp with is_covered := false
                    status := SpotStatus.AVAILABLE
                    revenue := sp.revenue + sessv.temp_total_cost })
        payments := s.payments ++
          [{ id := s.next_payment_id, reservation_id := rid,
             amount := sessv.temp_total_cost, payment_method := m,
             payment_status := PaymentStatus.PAID }]
        parking_lots := updateLot s.parking_lots spot.lot_id (fun l =>
          { l with revenue := l.revenue + sessv.temp_total_cost })
        next_payment_id := s.next_payment_id + 1 } := by
  unfold make_payment at h
  split at h
  · exact Except.noConfusion h
  · rename_i r hr
    split at h
    · exact Except.noConfusion h
    · rename_i sessv
      split at h
      · exact Except.noConfusion h
      · rename_i hcost
        split at h
        · exact Except.noConfusion h
        · rename_i spot_id hsid
          split at h
          · exact Except.noConfusion h
          · rename_i spot hspot
            split at h
            · exact Except.noConfusion h
            · rename_i lot hlot
              refine ⟨r, sessv, spot_id, spot, hr, rfl,
                by simpa [paymentFormAmount] using hcost, hsid, hspot,
                ⟨lot, hlot⟩, ?_⟩
              simpa [paymentFormAmount] using (Except.ok.inj h).symm

theorem released_ok_inv {s s' : DBState} {rid : ℕ} {now : PyDateTime}
    {ist : ℚ} {q : ReleaseQuote}
    (h : released s rid now ist = .ok (q, s')) :
    ∃ r, s.findReservation rid = some r ∧ s' = s ∧
      q.duration_hours = pyRound2
        ((now.toAbs -
          (if r.parking_timestamp.tz = none
           then r.parking_timestamp.replaceTz ist
           else r.parking_timestamp).toAbs) / 3600) ∧
      q.total_cost = pyRound2 (q.duration_hours * r.parking_cost_per_hour) := by
  unfold released at h
  split at h
  · exact Except.noConfusion h
  · rename_i r hr
    obtain ⟨hq, hs⟩ := Prod.mk.inj (Except.ok.inj h).symm
    subst hq; subst hs
    exact ⟨r, hr, rfl, rfl, rfl⟩

theorem add_parking_lot_ok_inv {s s' : DBState} {name : String}
    {price : ℚ} {n : ℤ} {ot ct : ℚ} {ok : Bool}
    (h : add_parking_lot s name price n ot ct ok = .ok s') :
    1 ≤ n ∧ 0 < price ∧ ok = true ∧
      s' = { s with
        parking_lots := s.parking_lots ++
          [{ id := s.next_lot_id, prime_location_name := name,
             price_per_hour := price, maximum_number_of_spots := n,
             revenue := 0, is_active := true,
             open_time := ot, close_time := ct }]
        parking_spots := s.parking_spots ++
          createdSpots s.next_lot_id s.next_spot_id n.toNat
        next_lot_id := s.next_lot_id + 1
        next_spot_id := s.next_spot_id + n.toNat } := by
  unfold add_parking_lot at h
  split at h
  · exact Except.noConfusion h
  · rename_i hn
    split at h
    · exact Except.noConfusion h
    · rename_i hp
      split at h
      · rename_i hok
        exact ⟨by omega, by linarith [not_le.1 (fun hc => hp (le_of_lt (lt_of_le_of_ne hc (by rintro rfl; exact hp le_rfl))))], hok, (Except.ok.inj h).symm⟩
      · exact Except.noConfusion h

theorem delete_parking_lot_ok_inv {s s' : DBState} {lot_id : ℕ}
    (h : delete_parking_lot s lot_id = .ok s') :
    (∃ lot, s.findLot lot_id = some lot) ∧
      occupied_spots s lot_id = 0 ∧
      s' = { s with
        parking_lots := s.parking_lots.filter (fun l => !(l.id == lot_id))
        parking_spots :=
          s.parking_spots.filter (fun sp => !(sp.lot_id == lot_id))
        reservations := nullifySpotRefs s.reservations
          (fun sid => s.parking_spots.any
            (fun sp => sp.id == sid && sp.lot_id == lot_id)) } := by
  unfold delete_parking_lot at h
  split at h
  · exact Except.noConfusion h
  · rename_i lot hlot
    split at h
    · exact Except.noConfusion h
    · rename_i hocc
      exact ⟨⟨lot, hlot⟩, by omega, (Except.ok.inj h).symm⟩

theorem view_delete_spot_ok_inv {s s' : DBState} {spot_id : ℕ}
    (h : view_delete_spot s spot_id = .ok s') :
    ∃ spot, s.findSpot spot_id = some spot ∧
      spot.status ≠ SpotStatus.OCCUPIED ∧
      s' = { s with
        parking_lots := updateLot s.parking_lots spot.lot_id
          (fun l => { l with
            maximum_number_of_spots := l.maximum_number_of_spots - 1 })
        parking_spots := s.parking_spots.filter (fun sp => !(sp.id == spot_id))
        reservations :=
          nullifySpotRefs s.reservations (fun sid => sid == spot_id) } := by
  unfold view_delete_spot at h
  split at h
  · exact Except.noConfusion h
  · rename_i spot hspot
    split at h
    · exact Except.noConfusion h
    · rename_i hst
      exact ⟨spot, hspot, by simpa using hst, (Except.ok.inj h).symm⟩

theorem api_spot_put_ok_inv {s s' : DBState} {spot_id : ℕ}
    {args : SpotPutArgs} (h : api_spot_put s spot_id args = .ok s') :
    s' = { s with
      parking_spots := updateSpot s.parking_spots spot_id (fun sp =>
        { sp with
          spot_number := args.spot_number.getD sp.spot_number
          lot_id := args.lot_id.getD sp.lot_id
          status := args.status.getD sp.status
          is_covered := args.is_covered.getD sp.is_covered }) } := by
  unfold api_spot_put at h
  split at h
  · exact Except.noConfusion h
  · exact (Except.ok.inj h).symm

theorem api_spot_delete_ok_inv {s s' : DBState} {spot_id : ℕ}
    (h : api_spot_delete s spot_id = .ok s') :
    s' = { s with
      parking_spots := s.parking_spots.filter (fun sp => !(sp.id == spot_id))
      reservations :=
        nullifySpotRefs s.reservations (fun sid => sid == spot_id) } := by
  unfold api_spot_delete at h
  split at h
  · exact Except.noConfusion h
  · exact (Except.ok.inj h).symm

theorem login_snd_reservations (s : DBState) (email pw : String) (now : ℚ) :
    (login s email pw now).2.reservations = s.reservations := by
  unfold login
  split
  · rfl
  · rename_i u hu
    by_cases hc : u.check_password pw
    · simp only [hc, if_true]
      by_cases ha : u.is_active
      · simp [ha]
      · simp only [ha, Bool.not_false, if_true]
        cases hd : u.scheduled_delete_at with
        | none => rfl
        | some d =>
          by_cases hnow : now < d
          · simp [hnow]
          · simp [hnow]
    · simp [hc]

theorem delete_scheduled_users_reservations (s : DBState) (now : ℚ) :
    (delete_scheduled_users s now).reservations
      = s.reservations.filter
          (fun r => !(s.users.any (fun u => sweepDead now u && u.id == r.user_id))) := by
  rfl

/-! ### Preservation of per-vehicle exclusivity -/

theorem activeFor_of_reservations_eq {s s' : DBState} (v : String)
    (h : s'.reservations = s.reservations) : activeFor s' v = activeFor s v := by
  simp [activeFor, h]

theorem activeFor_of_nullify {s s' : DBState} (v : String)
    (dead : ℕ → Bool)
    (h : s'.reservations = nullifySpotRefs s.reservations dead) :
    activeFor s' v = activeFor s v := by
  unfold activeFor
  rw [h]
  unfold nullifySpotRefs
  apply length_filter_map_congr
  intro r _
  cases hs : r.spot_id with
  | none => rfl
  | some sid =>
    by_cases hd : dead sid = true
    · simp [hd]
    · have hd' : dead sid = false := by simpa using hd
      simp [hd']

theorem vehicleInv_step {s s' : DBState} (hstep : Step s s')
    (hinv : vehicleInv s) : vehicleInv s' := by
  cases hstep with
  | reserve h =>
    rename_i lot_id spot_id uid vn attrs now
    obtain ⟨lot, hlot, havail, hany, hex, rfl⟩ := reserve_spot_post_ok_inv h
    intro v
    have base := hinv v
    unfold activeFor at base ⊢
    dsimp only
    rw [length_filter_append_singleton]
    by_cases hv : (vn == v) = true
    · obtain rfl : vn = v := eq_of_beq hv
      rw [length_filter_of_any_eq_false _ _ hany]
      simp
    · have hv' : (vn == v) = false := by simpa using hv
      simp only [hv', Option.isNone_none, Bool.false_and, Bool.false_eq_true,
        if_false, Nat.add_zero]
      exact base
  | quote h =>
    obtain ⟨r, _, rfl, _, _⟩ := released_ok_inv h
    exact hinv
  | pay h =>
    rename_i rid sess amt m
    obtain ⟨r, sessv, sid, spot, hr, rfl, hc, hsid, hspot, ⟨lot, hlot⟩, rfl⟩ :=
      make_payment_ok_inv h
    intro v
    refine le_trans ?_ (hinv v)
    unfold activeFor
    dsimp only
    unfold updateReservation
    apply length_filter_map_le
    intro a _ hpa
    by_cases hid : a.id = rid
    · simp [hid] at hpa
    · simp only [hid, beq_iff_eq, if_false] at hpa
      simpa using hpa
  | addLot h =>
    obtain ⟨_, _, _, rfl⟩ := add_parking_lot_ok_inv h
    intro v
    rw [activeFor_of_reservations_eq v rfl]
    exact hinv v
  | deleteLot h =>
    obtain ⟨_, _, rfl⟩ := delete_parking_lot_ok_inv h
    intro v
    rw [activeFor_of_nullify v _ rfl]
    exact hinv v
  | deleteSpot h =>
    obtain ⟨spot, hspot, _, rfl⟩ := view_delete_spot_ok_inv h
    intro v
    rw [activeFor_of_nullify v _ rfl]
    exact hinv v
  | apiSpotUpd h =>
    obtain rfl := api_spot_put_ok_inv h
    intro v
    rw [activeFor_of_reservations_eq v rfl]
    exact hinv v
  | apiSpotDel h =>
    obtain rfl := api_spot_delete_ok_inv h
    intro v
    rw [activeFor_of_nullify v _ rfl]
    exact hinv v
  | doLogin h =>
    intro v
    have hres : s'.reservations = s.reservations := by
      have := congrArg Prod.snd h
      dsimp at this
      rw [← this, login_snd_reservations]
    rw [activeFor_of_reservations_eq v hres]
    exact hinv v
  | sweep h =>
    intro v
    refine le_trans ?_ (hinv v)
    unfold activeFor
    rw [← h, delete_scheduled_users_reservations]
    exact length_filter_filter_le _ _ _

theorem vehicleInv_reachable {s : DBState} (h : Reachable s) : vehicleInv s := by
  induction h with
  | refl => intro v; simp [activeFor, initState]
  | tail _ hstep ih => exact vehicleInv_step hstep ih

/-- C2: at every reachable store, at most one reservation per vehicle number
has `leaving_timestamp == null`; and a `reserve_spot` submission for a
vehicle that already has an active reservation (with the lot found and not
full, the guards the source checks first) fails with `VehicleAlreadyParked`,
committing nothing. -/
theorem C2_vehicle_exclusivity :
    (∀ s, Reachable s → vehicleInv s) ∧
    (∀ (s : DBState) (lot_id spot_id : ℕ) (uid vn : String)
       (attrs : VehicleAttrs) (now : PyDateTime) (lot : ParkingLot),
      s.findLot lot_id = some lot →
      available_spot_ids s lot_id ≠ [] →
      s.reservations.any
        (fun r => r.vehicle_number == vn && r.leaving_timestamp.isNone)
        = true →
      reserve_spot_post s lot_id spot_id uid vn attrs now
        = Except.error ReserveError.VehicleAlreadyParked) := by
  constructor
  · exact fun s h => vehicleInv_reachable h
  · intro s lot_id spot_id uid vn attrs now lot hlot havail hany
    unfold reserve_spot_post
    rw [hlot]
    simp [havail, hany]

/-- Creating the scenario lot commits `demo1`. -/
theorem add_lot_demo1_eq :
    add_parking_lot initState "Central" 10 2 32400 61200 true = .ok demo1 := by
  decide

/-- Reserving spot 1 for vehicle "KA01" commits `demo2`. -/
theorem reserve_demo2_eq :
    reserve_spot_post demo1 1 1 "@user1" "KA01" demoAttrs now1 = .ok demo2 := by
  decide

/-- Settling reservation 1 with the quoted cost 20 commits `demo3`. -/
theorem pay_demo3_eq :
    make_payment demo2 1 (some sess1) 20 "upi" = .ok demo3 := by
  norm_num [make_payment, demo2, demo1, initState, updateReservation,
    updateSpot, updateLot, DBState.findReservation, DBState.findSpot,
    DBState.findLot, paymentFormAmount, sess1, demoRes1, demoSpot1, demoSpot2,
    demoLotR, demoPay1, vehicleKA01, now1, now2, istOff, demo3, List.find?]

theorem step_init_demo1 : Step initState demo1 :=
  Step.addLot add_lot_demo1_eq

theorem step_demo1_demo2 : Step demo1 demo2 :=
  Step.reserve reserve_demo2_eq

theorem step_demo2_demo3 : Step demo2 demo3 :=
  Step.pay pay_demo3_eq

theorem reachable_demo2 : Reachable demo2 :=
  Relation.ReflTransGen.tail
    (Relation.ReflTransGen.tail Relation.ReflTransGen.refl step_init_demo1)
    step_demo1_demo2

theorem reachable_demo3 : Reachable demo3 :=
  Relation.ReflTransGen.tail reachable_demo2 step_demo2_demo3

/-- C2: at every reachable store at most one reservation per vehicle number
is active, and (witnessing the second conjunct of `C2_vehicle_exclusivity`
at the reachable store `demo2`) a second reservation submission for the
already-parked vehicle "KA01" fails with `VehicleAlreadyParked`. -/
theorem C2_vehicle_exclusivity_witness :
    vehicleInv demo2 ∧
    reserve_spot_post demo2 1 2 "@user1" "KA01" demoAttrs now2
      = Except.error ReserveError.VehicleAlreadyParked :=
  ⟨C2_vehicle_exclusivity.1 demo2 reachable_demo2,
   C2_vehicle_exclusivity.2 demo2 1 2 "@user1" "KA01" demoAttrs now2 (demoLotR 0)
     (by decide) (by decide) (by decide)⟩

/-- Settling the SAME reservation a second time with the new quote commits
`demo4`. -/
theorem pay_demo4_eq :
    make_payment demo3 1 (some sess2) 999 "card" = .ok demo4 := by
  norm_num [make_payment, demo3, demo2, demo1, initState, updateReservation,
    updateSpot, updateLot, DBState.findReservation, DBState.findSpot,
    DBState.findLot, paymentFormAmount, sess2, demoRes1, demoSpot1, demoSpot2,
    demoLotR, demoPay1, demoPay2, vehicleKA01, now1, now2, now3, istOff, demo4,
    List.find?]

/-- A second reservation POST that resubmits the occupied spot 1 for vehicle
"KA02" commits `demo2b`. -/
theorem reserve_demo2b_eq :
    reserve_spot_post demo2 1 1 "@user2" "KA02" demoAttrs now2 = .ok demo2b := by
  decide

theorem round2_2 : pyRound2 2 = 2 := by with_unfolding_all decide
theorem round2_20 : pyRound2 20 = 20 := by with_unfolding_all decide
theorem round2_3 : pyRound2 3 = 3 := by with_unfolding_all decide
theorem round2_30 : pyRound2 30 = 30 := by with_unfolding_all decide

/-- Quoting the release of reservation 1 at `now2` (2 h parked): 2.00 h,
cost 20.00, store untouched. -/
theorem released_demo2_eq :
    released demo2 1 now2 istOff = .ok (⟨2, 20⟩, demo2) := by
  simp [released, demo2, demo1, initState, DBState.findReservation,
    demoRes1, now1, now2, istOff, PyDateTime.toAbs, List.find?,
    PyDateTime.replaceTz]
  norm_num [round2_2, round2_20]

/-- Quoting a release of the COMPLETED reservation 1 at `now3` also
succeeds (nothing inspects `leaving_timestamp`): 3.00 h, cost 30.00. -/
theorem released_demo3_eq :
    released demo3 1 now3 istOff = .ok (⟨3, 30⟩, demo3) := by
  simp [released, demo3, demo2, demo1, initState, DBState.findReservation,
    demoRes1, now1, now2, now3, istOff, PyDateTime.toAbs, List.find?,
    PyDateTime.replaceTz]
  norm_num [round2_3, round2_30]

theorem step_demo3_demo4 : Step demo3 demo4 :=
  Step.pay pay_demo4_eq

theorem step_demo2_demo2b : Step demo2 demo2b :=
  Step.reserve reserve_demo2b_eq

theorem reachable_demo4 : Reachable demo4 :=
  Relation.ReflTransGen.tail reachable_demo3 step_demo3_demo4

theorem reachable_demo2b : Reachable demo2b :=
  Relation.ReflTransGen.tail reachable_demo2 step_demo2_demo2b

/-! ### Row lookup after a staged row update -/

theorem find?_updateReservation (l : List ReservedParkingSpot) (rid : ℕ)
    (f : ReservedParkingSpot → ReservedParkingSpot)
    (hf : ∀ r, (f r).id = r.id) :
    (updateReservation l rid f).find? (fun r => r.id == rid)
      = (l.find? (fun r => r.id == rid)).map f := by
  unfold updateReservation
  exact find?_map_ite _ _ (fun a ha => by simpa [hf a] using ha) l

theorem find?_updateSpot (l : List ParkingSpot) (i : ℕ)
    (f : ParkingSpot → ParkingSpot) (hf : ∀ sp, (f sp).id = sp.id) :
    (updateSpot l i f).find? (fun sp => sp.id == i)
      = (l.find? (fun sp => sp.id == i)).map f := by
  unfold updateSpot
  exact find?_map_ite _ _ (fun a ha => by simpa [hf a] using ha) l

theorem find?_updateLot (l : List ParkingLot) (i : ℕ)
    (f : ParkingLot → ParkingLot) (hf : ∀ lt, (f lt).id = lt.id) :
    (updateLot l i f).find? (fun lt => lt.id == i)
      = (l.find? (fun lt => lt.id == i)).map f := by
  unfold updateLot
  exact find?_map_ite _ _ (fun a ha => by simpa [hf a] using ha) l

/-- C1 (amended): a successful `make_payment` commits, in one unit: the
reservation's `leaving_timestamp` set to the session-quoted timestamp and
status COMPLETED, the spot AVAILABLE and uncovered with its revenue
incremented by the quoted total cost, the owning lot's revenue incremented
by the same amount, and exactly ONE NEW Payment row with status PAID whose
amount is the quoted total cost appended to the payments table — so when no
payment existed for the reservation beforehand, exactly one PAID payment
exists for it afterwards.  (Errors return no successor store at all: the
transaction rolls back.) -/
theorem C1_make_payment_effects
    (s s' : DBState) (rid : ℕ) (sess : PaySession) (amt : ℚ) (m : String)
    (r : ReservedParkingSpot) (sid : ℕ) (spot : ParkingSpot)
    (lot : ParkingLot)
    (hr : s.findReservation rid = some r)
    (hsid : r.spot_id = some sid)
    (hspot : s.findSpot sid = some spot)
    (hlot : s.findLot spot.lot_id = some lot)
    (h : make_payment s rid (some sess) amt m = .ok s') :
    s'.findReservation rid = some
      { r with leaving_timestamp := some sess.temp_leaving_timestamp,
               status := ReservationStatus.COMPLETED } ∧
    s'.findSpot sid = some
      { spot with is_covered := false, status := SpotStatus.AVAILABLE,
                  revenue := spot.revenue + sess.temp_total_cost } ∧
    s'.findLot spot.lot_id = some
      { lot with revenue := lot.revenue + sess.temp_total_cost } ∧
    s'.payments = s.payments ++
      [{ id := s.next_payment_id, reservation_id := rid,
         amount := sess.temp_total_cost, payment_method := m,
         payment_status := PaymentStatus.PAID }] ∧
    (paidPaymentsFor s rid = [] →
      paidPaymentsFor s' rid =
        [{ id := s.next_payment_id, reservation_id := rid,
           amount := sess.temp_total_cost, payment_method := m,
           payment_status := PaymentStatus.PAID }]) := by
  obtain ⟨r', sessv, sid', spot', hr', hsess, hc, hsid', hspot', ⟨lot', hlot'⟩,
    rfl⟩ := make_payment_ok_inv h
  have es : sess = sessv := Option.some.inj hsess
  subst es
  rw [hr] at hr'
  have er : r = r' := Option.some.inj hr'
  subst er
  rw [hsid] at hsid'
  have ei : sid = sid' := Option.some.inj hsid'
  subst ei
  rw [hspot] at hspot'
  have ep : spot = spot' := Option.some.inj hspot'
  subst ep
  refine ⟨?_, ?_, ?_, rfl, ?_⟩
  · show (updateReservation s.reservations rid
      (fun x =>
        { x with leaving_timestamp := some sess.temp_leaving_timestamp,
                 status := ReservationStatus.COMPLETED })).find?
      (fun x => x.id == rid) = _
    rw [find?_updateReservation s.reservations rid
      (fun x =>
        { x with leaving_timestamp := some sess.temp_leaving_timestamp,
                 status := ReservationStatus.COMPLETED }) (fun _ => rfl)]
    rw [show s.reservations.find? (fun x => x.id == rid) = some r from hr]
    rfl
  · show (updateSpot s.parking_spots sid
      (fun x =>
        { x with is_covered := false, status := SpotStatus.AVAILABLE,
                 revenue := x.revenue + sess.temp_total_cost })).find?
      (fun x => x.id == sid) = _
    rw [find?_updateSpot s.parking_spots sid
      (fun x =>
        { x with is_covered := false, status := SpotStatus.AVAILABLE,
                 revenue := x.revenue + sess.temp_total_cost })
      (fun _ => rfl)]
    rw [show s.parking_spots.find? (fun x => x.id == sid) = some spot from
      hspot]
    rfl
  · show (updateLot s.parking_lots spot.lot_id
      (fun x =>
        { x with revenue := x.revenue + sess.temp_total_cost })).find?
      (fun x => x.id == spot.lot_id) = _
    rw [find?_updateLot s.parking_lots spot.lot_id
      (fun x =>
        { x with revenue := x.revenue + sess.temp_total_cost })
      (fun _ => rfl)]
    rw [show s.parking_lots.find? (fun x => x.id == spot.lot_id) = some lot
      from hlot]
    rfl
  · intro hempty
    unfold paidPaymentsFor at hempty ⊢
    dsimp only
    rw [List.filter_append]
    rw [show s.payments.filter _ = ([] : List Payment) from hempty]
    simp

/-- C1 witness: the effects theorem applied to the concrete settlement of
reservation 1 in the scenario store (`demo2` → `demo3`). -/
theorem C1_make_payment_effects_witness :
    demo3.findReservation 1 = some
      { demoRes1 none ReservationStatus.ACTIVE with
        leaving_timestamp := some sess1.temp_leaving_timestamp,
        status := ReservationStatus.COMPLETED } ∧
    demo3.findSpot 1 = some
      { demoSpot1 SpotStatus.OCCUPIED true 0 with
        is_covered := false, status := SpotStatus.AVAILABLE,
        revenue := (demoSpot1 SpotStatus.OCCUPIED true 0).revenue
          + sess1.temp_total_cost } ∧
    demo3.findLot (demoSpot1 SpotStatus.OCCUPIED true 0).lot_id = some
      { demoLotR 0 with
        revenue := (demoLotR 0).revenue + sess1.temp_total_cost } ∧
    demo3.payments = demo2.payments ++
      [{ id := demo2.next_payment_id, reservation_id := 1,
         amount := sess1.temp_total_cost, payment_method := "upi",
         payment_status := PaymentStatus.PAID }] ∧
    (paidPaymentsFor demo2 1 = [] →
      paidPaymentsFor demo3 1 =
        [{ id := demo2.next_payment_id, reservation_id := 1,
           amount := sess1.temp_total_cost, payment_method := "upi",
           payment_status := PaymentStatus.PAID }]) :=
  C1_make_payment_effects demo2 demo3 1 sess1 20 "upi"
    (demoRes1 none ReservationStatus.ACTIVE) 1
    (demoSpot1 SpotStatus.OCCUPIED true 0) (demoLotR 0)
    (by decide) (by decide) (by decide) (by decide) pay_demo3_eq

/-- C1 counterexample: a successful `make_payment` performed on the
reachable store `demo3` — where reservation 1 already carries a PAID
payment — commits a post-state with TWO PAID payments for that reservation,
refuting the claim that exactly one PAID payment exists after every
successful settlement. -/
theorem C1_counterexample_double_payment :
    Reachable demo3 ∧
    (paidPaymentsFor demo3 1).length = 1 ∧
    make_payment demo3 1 (some sess2) 999 "card" = Except.ok demo4 ∧
    (paidPaymentsFor demo4 1).length = 2 :=
  ⟨reachable_demo3, by decide, pay_demo4_eq, by decide⟩

/-- C3 is violated by the code: the POST branch of `reserve_spot` writes
OCCUPIED to the submitted spot without re-checking that it is still
AVAILABLE, so in the reachable store `demo2b` spot 1 is OCCUPIED while TWO
reservations reference it with `leaving_timestamp == null` — the claimed
iff (occupied ↔ exactly one active reservation) fails. -/
theorem C3_reserve_overwrites_occupied_spot :
    Reachable demo2 ∧
    (demo2.findSpot 1).map (fun sp => sp.status) = some SpotStatus.OCCUPIED ∧
    activeResOn demo2 1 = 1 ∧
    reserve_spot_post demo2 1 1 "@user2" "KA02" demoAttrs now2
      = Except.ok demo2b ∧
    Reachable demo2b ∧
    activeResOn demo2b 1 = 2 ∧
    ¬ spotInv demo2b :=
  ⟨reachable_demo2, by decide, by decide, reserve_demo2b_eq, reachable_demo2b,
   by decide, by unfold spotInv activeResOn; decide⟩

/-- C4 is violated by the code: neither `released` nor `make_payment`
inspects `leaving_timestamp`, so re-running the release flow on the
COMPLETED reservation 1 (reachable store `demo3`) succeeds instead of
failing with ReservationNotActive: the reservation is re-completed with a
new leaving timestamp, spot and lot revenue are incremented again, and a
second PAID payment is appended. -/
theorem C4_settle_completed_reservation_succeeds :
    Reachable demo3 ∧
    (demo3.findReservation 1).map (fun r => r.leaving_timestamp)
      = some (some now2) ∧
    released demo3 1 now3 istOff = Except.ok (⟨3, 30⟩, demo3) ∧
    make_payment demo3 1 (some sess2) 999 "card" = Except.ok demo4 ∧
    demo4 ≠ demo3 ∧
    (paidPaymentsFor demo4 1).length = 2 ∧
    (demo4.findLot 1).map (fun l => l.revenue) = some 50 :=
  ⟨reachable_demo3, by decide, released_demo3_eq, pay_demo4_eq,
   by decide, by decide, by decide⟩

/-- 20:00 local, outside the 09:00-17:00 window of lot 1. -/
def nowClosed : PyDateTime := ⟨72000, some istOff⟩

/-- The store committed by the POST submitted while the lot is closed. -/
def demo2c : DBState :=
  { demo1 with
    parking_spots := [demoSpot1 SpotStatus.OCCUPIED true 0, demoSpot2]
    vehicles := [vehicleKA01]
    reservations := [{ demoRes1 none ReservationStatus.ACTIVE with
      parking_timestamp := nowClosed }]
    next_reservation_id := 2 }

/-- C5 is violated by the code: the operating-hours guard lives only in the
GET branch of `reserve_spot` (`if request.method == "GET"`); the POST that
actually creates the reservation performs no hours check.  At 20:00 —
outside lot 1's 09:00-17:00 window — the GET is refused with
OutsideOperatingHours, yet the submission at the same wall-clock instant
commits a reservation and occupies the spot. -/
theorem C5_submission_bypasses_hours_check :
    (demo1.findLot 1).map (fun l => (l.open_time, l.close_time))
      = some (32400, 61200) ∧
    ¬ ((32400 : ℚ) ≤ 72000 ∧ (72000 : ℚ) ≤ 61200) ∧
    reserve_spot_get demo1 1 72000
      = Except.error ReserveError.OutsideOperatingHours ∧
    reserve_spot_post demo1 1 1 "@user1" "KA01" demoAttrs nowClosed
      = Except.ok demo2c ∧
    demo2c.reservations.length = 1 ∧
    (demo2c.findSpot 1).map (fun sp => sp.status) = some SpotStatus.OCCUPIED :=
  ⟨by decide, by norm_num, by decide, by decide, by decide, by decide⟩

theorem round2_zero : pyRound2 0 = 0 := by with_unfolding_all decide

/-- C6: `released` returns durationHours = round2((now − parking)/3600) and
estimatedCost = round2(durationHours · parking_cost_per_hour), a naive
parking timestamp being first reinterpreted in the local timezone, and
commits nothing; quoting immediately after reserving, at the very timestamp
stored as `parking_timestamp`, yields 0.00 hours and cost 0.00. -/
theorem C6_quote_release :
    (∀ (s : DBState) (rid : ℕ) (now : PyDateTime) (ist : ℚ)
       (r : ReservedParkingSpot) (q : ReleaseQuote) (s' : DBState),
      s.findReservation rid = some r →
      released s rid now ist = Except.ok (q, s') →
      q.duration_hours = pyRound2
        ((now.toAbs -
          (if r.parking_timestamp.tz = none
           then r.parking_timestamp.replaceTz ist
           else r.parking_timestamp).toAbs) / 3600) ∧
      q.total_cost = pyRound2 (q.duration_hours * r.parking_cost_per_hour) ∧
      s' = s) ∧
    (∀ (s s₁ : DBState) (lot_id spot_id : ℕ) (uid vn : String)
       (attrs : VehicleAttrs) (now : PyDateTime) (ist : ℚ),
      now.tz ≠ none →
      (∀ r ∈ s.reservations, r.id ≠ s.next_reservation_id) →
      reserve_spot_post s lot_id spot_id uid vn attrs now = Except.ok s₁ →
      released s₁ s.next_reservation_id now ist
        = Except.ok (⟨0, 0⟩, s₁)) := by
  constructor
  · intro s rid now ist r q s' hr h
    obtain ⟨r0, hr0, hs, hd, hc⟩ := released_ok_inv h
    rw [hr] at hr0
    have er : r = r0 := Option.some.inj hr0
    subst er
    exact ⟨hd, hc, hs⟩
  · intro s s₁ lot_id spot_id uid vn attrs now ist htz hfresh h
    obtain ⟨lot, hlot, havail, hany, hex, rfl⟩ := reserve_spot_post_ok_inv h
    unfold released DBState.findReservation
    dsimp only
    rw [List.find?_append]
    have h1 : s.reservations.find?
        (fun r => r.id == s.next_reservation_id) = none := by
      rw [List.find?_eq_none]
      intro x hx
      simpa using hfresh x hx
    rw [h1]
    simp only [Option.none_or]
    rw [List.find?_cons_of_pos _ (by simp)]
    cases hnow : now.tz with
    | none => exact absurd hnow htz
    | some o =>
      simp [hnow, PyDateTime.toAbs]
      norm_num [round2_zero]

/-- C6 witness: the quote formula at the concrete 2-hour release of
reservation 1, and the zero round-trip quote issued at the reservation's
own parking timestamp. -/
theorem C6_quote_release_witness :
    ((⟨2, 20⟩ : ReleaseQuote).duration_hours = pyRound2
      ((now2.toAbs -
        (if (demoRes1 none ReservationStatus.ACTIVE).parking_timestamp.tz
            = none
         then (demoRes1 none
            ReservationStatus.ACTIVE).parking_timestamp.replaceTz istOff
         else (demoRes1 none
            ReservationStatus.ACTIVE).parking_timestamp).toAbs) / 3600) ∧
     (⟨2, 20⟩ : ReleaseQuote).total_cost = pyRound2
       ((⟨2, 20⟩ : ReleaseQuote).duration_hours *
        (demoRes1 none ReservationStatus.ACTIVE).parking_cost_per_hour) ∧
     demo2 = demo2) ∧
    released demo2 1 now1 istOff = Except.ok (⟨0, 0⟩, demo2) :=
  ⟨C6_quote_release.1 demo2 1 now2 istOff
     (demoRes1 none ReservationStatus.ACTIVE) ⟨2, 20⟩ demo2
     (by decide) released_demo2_eq,
   C6_quote_release.2 demo1 demo2 1 1 "@user1" "KA01" demoAttrs now1 istOff
     (by decide) (by decide) reserve_demo2_eq⟩

/-! ### Injectivity of the decimal spot numbering -/

theorem toDigitsCore_append (b : ℕ) :
    ∀ (fuel n : ℕ) (l : List Char),
      Nat.toDigitsCore b fuel n l = Nat.toDigitsCore b fuel n [] ++ l := by
  intro fuel
  induction fuel with
  | zero => intro n l; simp [Nat.toDigitsCore]
  | succ f ih =>
    intro n l
    unfold Nat.toDigitsCore
    by_cases h : n / b = 0
    · simp [h]
    · simp only [h, if_false]
      rw [ih (n / b) (Nat.digitChar (n % b) :: l),
        ih (n / b) [Nat.digitChar (n % b)]]
      simp

theorem toDigitsCore_fuel (b : ℕ) (hb : 2 ≤ b) :
    ∀ (n f₁ f₂ : ℕ), n < f₁ → n < f₂ →
      Nat.toDigitsCore b f₁ n [] = Nat.toDigitsCore b f₂ n [] := by
  intro n
  induction n using Nat.strong_induction_on with
  | _ n ih =>
    intro f₁ f₂ h₁ h₂
    obtain ⟨g₁, rfl⟩ : ∃ g, f₁ = g + 1 := ⟨f₁ - 1, by omega⟩
    obtain ⟨g₂, rfl⟩ : ∃ g, f₂ = g + 1 := ⟨f₂ - 1, by omega⟩
    unfold Nat.toDigitsCore
    by_cases h : n / b = 0
    · simp [h]
    · simp only [h, if_false]
      have hn1 : 1 ≤ n := by
        rcases Nat.eq_zero_or_pos n with rfl | h'
        · exact absurd (Nat.zero_div b) h
        · exact h'
      have hdiv : n / b < n := Nat.div_lt_self hn1 (by omega)
      rw [toDigitsCore_append b g₁, toDigitsCore_append b g₂,
        ih (n / b) hdiv g₁ g₂ (by omega) (by omega)]

/-- The decimal digit list of a natural number (`Nat.toDigits 10`). -/
def digitsOf (n : ℕ) : List Char := Nat.toDigits 10 n

theorem digitsOf_small {n : ℕ} (h : n < 10) :
    digitsOf n = [Nat.digitChar n] := by
  unfold digitsOf Nat.toDigits
  unfold Nat.toDigitsCore
  have h0 : n / 10 = 0 := Nat.div_eq_of_lt h
  simp [h0, Nat.mod_eq_of_lt h]

theorem digitsOf_large {n : ℕ} (h : 10 ≤ n) :
    digitsOf n = digitsOf (n / 10) ++ [Nat.digitChar (n % 10)] := by
  unfold digitsOf Nat.toDigits
  conv_lhs => unfold Nat.toDigitsCore
  have h0 : ¬ n / 10 = 0 := by
    intro hc
    have := (Nat.div_eq_zero_iff (by norm_num)).1 hc
    omega
  simp only [h0, if_false]
  rw [toDigitsCore_append]
  have hlt : n / 10 < n := Nat.div_lt_self (by omega) (by norm_num)
  rw [toDigitsCore_fuel 10 (by norm_num) (n / 10) n (n / 10 + 1) hlt
    (Nat.lt_succ_self _)]

/-- Value of a decimal digit character. -/
def decDigit (c : Char) : ℕ := c.toNat - 48

/-- Decode a decimal digit list back to the number. -/
def decodeDigits (l : List Char) : ℕ :=
  l.foldl (fun a c => 10 * a + decDigit c) 0

theorem decodeDigits_append_singleton (l : List Char) (c : Char) :
    decodeDigits (l ++ [c]) = 10 * decodeDigits l + decDigit c := by
  unfold decodeDigits
  rw [List.foldl_append]
  rfl

theorem decDigit_digitChar : ∀ d < 10, decDigit (Nat.digitChar d) = d := by
  decide

theorem decodeDigits_digitsOf : ∀ n : ℕ, decodeDigits (digitsOf n) = n := by
  intro n
  induction n using Nat.strong_induction_on with
  | _ n ih =>
    by_cases h : n < 10
    · rw [digitsOf_small h]
      show 10 * 0 + decDigit (Nat.digitChar n) = n
      rw [decDigit_digitChar n h]
      omega
    · push_neg at h
      rw [digitsOf_large h, decodeDigits_append_singleton,
        ih (n / 10) (Nat.div_lt_self (by omega) (by norm_num)),
        decDigit_digitChar (n % 10) (Nat.mod_lt _ (by norm_num))]
      omega

theorem nat_repr_injective : Function.Injective Nat.repr := by
  intro m n h
  have hd : digitsOf m = digitsOf n := by
    have h' := congrArg String.data h
    simpa [Nat.repr, Nat.toDigits, digitsOf] using h'
  have := congrArg decodeDigits hd
  simpa [decodeDigits_digitsOf] using this

theorem mkSpotNumber_right_injective (lot_id : ℕ) :
    Function.Injective (fun i => mkSpotNumber lot_id i) := by
  intro i j h
  unfold mkSpotNumber at h
  have hd := congrArg String.data h
  simp only [String.data_append, List.append_assoc] at hd
  have h1 := List.append_cancel_left hd
  have h2 := List.append_cancel_left h1
  have h2' : (Nat.repr i).toList = (Nat.repr j).toList := h2
  have h3 : Nat.repr i = Nat.repr j := by
    calc Nat.repr i = (Nat.repr i).toList.asString :=
          (String.asString_toList _).symm
      _ = (Nat.repr j).toList.asString := by rw [h2']
      _ = Nat.repr j := String.asString_toList _
  exact nat_repr_injective h3

/-- The spots owned by a lot (`lot.parking_spots`). -/
def spotsOf (s : DBState) (lot_id : ℕ) : List ParkingSpot :=
  s.parking_spots.filter (fun sp => sp.lot_id == lot_id)

/-- C7: a successful `add_parking_lot` with capacity N (validated ≥ 1)
commits, in one unit, the lot row together with exactly N spots owned by
it, numbered `{lotId}-1` … `{lotId}-N` — all distinct — and all AVAILABLE;
with `commit_ok = false` (the `SQLAlchemyError` branch) the whole unit
rolls back and neither the lot nor any spot is persisted. -/
theorem C7_create_lot_spots
    (s s' : DBState) (name : String) (price : ℚ) (n : ℤ) (ot ct : ℚ)
    (hfreshSpots : ∀ sp ∈ s.parking_spots, sp.lot_id ≠ s.next_lot_id)
    (hfreshLots : ∀ l ∈ s.parking_lots, l.id ≠ s.next_lot_id)
    (h : add_parking_lot s name price n ot ct true = Except.ok s') :
    spotsOf s' s.next_lot_id
      = createdSpots s.next_lot_id s.next_spot_id n.toNat ∧
    (spotsOf s' s.next_lot_id).length = n.toNat ∧
    1 ≤ n ∧
    (spotsOf s' s.next_lot_id).map (fun sp => sp.spot_number)
      = (List.range n.toNat).map
          (fun i => mkSpotNumber s.next_lot_id (i + 1)) ∧
    ((spotsOf s' s.next_lot_id).map (fun sp => sp.spot_number)).Nodup ∧
    (∀ sp ∈ spotsOf s' s.next_lot_id, sp.status = SpotStatus.AVAILABLE) ∧
    s'.findLot s.next_lot_id = some
      { id := s.next_lot_id, prime_location_name := name,
        price_per_hour := price, maximum_number_of_spots := n, revenue := 0,
        is_active := true, open_time := ot, close_time := ct } ∧
    add_parking_lot s name price n ot ct false
      = Except.error AdminError.PersistenceFailure := by
  obtain ⟨hn, hp, _, rfl⟩ := add_parking_lot_ok_inv h
  have hkey : spotsOf
      { s with
        parking_lots := s.parking_lots ++
          [{ id := s.next_lot_id, prime_location_name := name,
             price_per_hour := price, maximum_number_of_spots := n,
             revenue := 0, is_active := true,
             open_time := ot, close_time := ct }]
        parking_spots := s.parking_spots ++
          createdSpots s.next_lot_id s.next_spot_id n.toNat
        next_lot_id := s.next_lot_id + 1
        next_spot_id := s.next_spot_id + n.toNat } s.next_lot_id
      = createdSpots s.next_lot_id s.next_spot_id n.toNat := by
    unfold spotsOf
    dsimp only
    rw [List.filter_append]
    have h1 : s.parking_spots.filter
        (fun sp => sp.lot_id == s.next_lot_id) = [] := by
      rw [List.filter_eq_nil_iff]
      intro a ha
      simpa using hfreshSpots a ha
    have h2 : (createdSpots s.next_lot_id s.next_spot_id n.toNat).filter
          (fun sp => sp.lot_id == s.next_lot_id)
        = createdSpots s.next_lot_id s.next_spot_id n.toNat := by
      rw [List.filter_eq_self]
      intro a ha
      unfold createdSpots at ha
      obtain ⟨i, _, rfl⟩ := List.mem_map.1 ha
      simp
    rw [h1, h2, List.nil_append]
  refine ⟨hkey, ?_, hn, ?_, ?_, ?_, ?_, ?_⟩
  · rw [hkey]
    unfold createdSpots
    simp
  · rw [hkey]
    unfold createdSpots
    rw [List.map_map]
    rfl
  · rw [hkey]
    unfold createdSpots
    rw [List.map_map]
    refine List.Nodup.map ?_ (List.nodup_range _)
    intro a b hab
    have := mkSpotNumber_right_injective s.next_lot_id
      (show (fun i => mkSpotNumber s.next_lot_id i) (a + 1)
        = (fun i => mkSpotNumber s.next_lot_id i) (b + 1) from hab)
    omega
  · intro sp hsp
    rw [hkey] at hsp
    unfold createdSpots at hsp
    obtain ⟨i, _, rfl⟩ := List.mem_map.1 hsp
    rfl
  · show (s.parking_lots ++ _).find? (fun l => l.id == s.next_lot_id) = _
    rw [List.find?_append]
    have h0 : s.parking_lots.find? (fun l => l.id == s.next_lot_id)
        = none := by
      rw [List.find?_eq_none]
      intro x hx
      simpa using hfreshLots x hx
    rw [h0]
    simp only [Option.none_or]
    rw [List.find?_cons_of_pos _ (by simp)]
  · unfold add_parking_lot
    rw [if_neg (by omega : ¬ n < 1), if_neg (not_le.2 hp)]
    rfl

/-- C7 witness: creating the scenario lot with capacity 2 at the
bootstrapped store yields exactly spots "1-1" and "1-2", distinct and
AVAILABLE, and the rolled-back variant persists nothing. -/
theorem C7_create_lot_spots_witness :
    spotsOf demo1 1 = createdSpots 1 1 2 ∧
    (spotsOf demo1 1).length = 2 ∧
    1 ≤ (2 : ℤ) ∧
    (spotsOf demo1 1).map (fun sp => sp.spot_number)
      = (List.range 2).map (fun i => mkSpotNumber 1 (i + 1)) ∧
    ((spotsOf demo1 1).map (fun sp => sp.spot_number)).Nodup ∧
    (∀ sp ∈ spotsOf demo1 1, sp.status = SpotStatus.AVAILABLE) ∧
    demo1.findLot 1 = some
      { id := 1, prime_location_name := "Central", price_per_hour := 10,
        maximum_number_of_spots := 2, revenue := 0, is_active := true,
        open_time := 32400, close_time := 61200 } ∧
    add_parking_lot initState "Central" 10 2 32400 61200 false
      = Except.error AdminError.PersistenceFailure :=
  C7_create_lot_spots initState demo1 "Central" 10 2 32400 61200
    (by decide) (by decide) add_lot_demo1_eq

/-- C8: `delete_parking_lot` refuses with Conflict while the lot has at
least one OCCUPIED spot (an error commits nothing, so the lot and spots are
untouched); with zero occupied spots it commits a store from which the lot
and every spot owned by it are gone, other rows untouched. -/
theorem C8_delete_lot (s : DBState) (lot_id : ℕ) (lot : ParkingLot)
    (hlot : s.findLot lot_id = some lot) :
    (occupied_spots s lot_id > 0 →
      delete_parking_lot s lot_id = Except.error AdminError.Conflict) ∧
    (occupied_spots s lot_id = 0 →
      ∃ s', delete_parking_lot s lot_id = Except.ok s' ∧
        s'.parking_lots
          = s.parking_lots.filter (fun l => !(l.id == lot_id)) ∧
        s'.parking_spots
          = s.parking_spots.filter (fun sp => !(sp.lot_id == lot_id)) ∧
        s'.findLot lot_id = none ∧
        spotsOf s' lot_id = [] ∧
        s'.users = s.users ∧ s'.vehicles = s.vehicles ∧
        s'.payments = s.payments) := by
  constructor
  · intro hocc
    unfold delete_parking_lot
    rw [hlot, if_pos hocc]
  · intro hzero
    unfold delete_parking_lot
    rw [hlot, if_neg (by omega)]
    refine ⟨_, rfl, rfl, rfl, ?_, ?_, rfl, rfl, rfl⟩
    · show (s.parking_lots.filter (fun l => !(l.id == lot_id))).find?
        (fun l => l.id == lot_id) = none
      rw [List.find?_eq_none]
      intro x hx
      have := (List.mem_filter.1 hx).2
      simp at this
      simp [this]
    · show (s.parking_spots.filter (fun sp => !(sp.lot_id == lot_id))).filter
        (fun sp => sp.lot_id == lot_id) = []
      rw [List.filter_eq_nil_iff]
      intro a ha
      have := (List.mem_filter.1 ha).2
      simp at this
      simp [this]

/-- C8 witness: deleting lot 1 while spot 1 is OCCUPIED (`demo2`) is
refused with Conflict; deleting it in `demo1` (no occupied spot) removes
the lot together with both of its spots. -/
theorem C8_delete_lot_witness :
    delete_parking_lot demo2 1 = Except.error AdminError.Conflict ∧
    (∃ s', delete_parking_lot demo1 1 = Except.ok s' ∧
      s'.parking_lots = demo1.parking_lots.filter (fun l => !(l.id == 1)) ∧
      s'.parking_spots
        = demo1.parking_spots.filter (fun sp => !(sp.lot_id == 1)) ∧
      s'.findLot 1 = none ∧
      spotsOf s' 1 = [] ∧
      s'.users = demo1.users ∧ s'.vehicles = demo1.vehicles ∧
      s'.payments = demo1.payments) :=
  ⟨(C8_delete_lot demo2 1 (demoLotR 0) (by decide)).1 (by decide),
   (C8_delete_lot demo1 1 (demoLotR 0) (by decide)).2 (by decide)⟩

/-- C9: with matching credentials on an inactive account, `login` cancels
an unexpired scheduled deletion (clearing `scheduled_delete_at`, setting
`is_active`) and proceeds; refuses with AccountPermanentlyDeleted once the
deadline has passed, committing nothing; refuses with AccountInactive when
no deletion is scheduled, committing nothing. -/
theorem C9_login_recovery (s : DBState) (email pw : String) (now : ℚ)
    (u : User)
    (hu : s.findUserByEmail email = some u)
    (hpw : u.check_password pw = true)
    (hin : u.is_active = false) :
    (∀ d, u.scheduled_delete_at = some d → now < d →
      login s email pw now = (LoginResult.Success true,
        { s with users := updateUser s.users u.id User.cancel_deletion })) ∧
    (∀ d, u.scheduled_delete_at = some d → d ≤ now →
      login s email pw now = (LoginResult.AccountPermanentlyDeleted, s)) ∧
    (u.scheduled_delete_at = none →
      login s email pw now = (LoginResult.AccountInactive, s)) ∧
    (User.cancel_deletion u).scheduled_delete_at = none ∧
    (User.cancel_deletion u).is_active = true := by
  refine ⟨?_, ?_, ?_, rfl, rfl⟩
  · intro d hd hlt
    unfold login
    rw [hu]
    simp [hpw, hin, hd, hlt]
  · intro d hd hge
    unfold login
    rw [hu]
    simp [hpw, hin, hd, not_lt.2 hge]
  · intro hd
    unfold login
    rw [hu]
    simp [hpw, hin, hd]

/-- A user who scheduled deletion (deadline at absolute second 500000). -/
def sleepyUser : User :=
  { id := "@u3", email := "u3@mail.com", password_hash := "pw3",
    role := UserRole.USER, scheduled_delete_at := some 500000,
    is_active := false }

/-- An inactive user with no scheduled deletion. -/
def inertUser : User :=
  { id := "@u4", email := "u4@mail.com", password_hash := "pw4",
    role := UserRole.USER, scheduled_delete_at := none,
    is_active := false }

def demoU : DBState :=
  { initState with users := initState.users ++ [sleepyUser, inertUser] }

/-- C9 witness: the three login outcomes at concrete accounts — recovery
before the deadline, refusal after it, refusal with no deadline. -/
theorem C9_login_recovery_witness :
    login demoU "u3@mail.com" "pw3" 400000 = (LoginResult.Success true,
      { demoU with
        users := updateUser demoU.users "@u3" User.cancel_deletion }) ∧
    login demoU "u3@mail.com" "pw3" 600000
      = (LoginResult.AccountPermanentlyDeleted, demoU) ∧
    login demoU "u4@mail.com" "pw4" 400000
      = (LoginResult.AccountInactive, demoU) :=
  ⟨(C9_login_recovery demoU "u3@mail.com" "pw3" 400000 sleepyUser
      (by decide) (by decide) (by decide)).1 500000 (by decide) (by decide),
   ((C9_login_recovery demoU "u3@mail.com" "pw3" 600000 sleepyUser
      (by decide) (by decide) (by decide)).2).1 500000 (by decide)
      (by decide),
   (((C9_login_recovery demoU "u4@mail.com" "pw4" 400000 inertUser
      (by decide) (by decide) (by decide)).2).2).1 (by decide)⟩

/-- C10: the committed outcome of `make_payment` is independent of the
client-submitted amount — `form.amount.data = total_cost` overwrites it
before any use — and every successful settlement records a Payment whose
amount is the server-side quoted total cost. -/
theorem C10_amount_independence :
    (∀ (s : DBState) (rid : ℕ) (sess : Option PaySession) (a₁ a₂ : ℚ)
       (m : String),
      make_payment s rid sess a₁ m = make_payment s rid sess a₂ m) ∧
    (∀ (s s' : DBState) (rid : ℕ) (sess : PaySession) (a : ℚ) (m : String),
      make_payment s rid (some sess) a m = Except.ok s' →
      ∃ p, s'.payments = s.payments ++ [p] ∧
        p.amount = sess.temp_total_cost) := by
  constructor
  · intro s rid sess a₁ a₂ m
    rfl
  · intro s s' rid sess a m h
    obtain ⟨r, sessv, sid, spot, hr, hsess, hc, hsid, hspot, hlot, rfl⟩ :=
      make_payment_ok_inv h
    have es : sess = sessv := Option.some.inj hsess
    subst es
    exact ⟨_, rfl, rfl⟩

/-- C10 witness: submitting 20 and submitting 77 for the same settlement
produce the same result, and the concrete settlement `demo2 → demo3`
records the quoted amount 20. -/
theorem C10_amount_independence_witness :
    make_payment demo2 1 (some sess1) 20 "upi"
      = make_payment demo2 1 (some sess1) 77 "upi" ∧
    (∃ p, demo3.payments = demo2.payments ++ [p] ∧
      p.amount = sess1.temp_total_cost) :=
  ⟨C10_amount_independence.1 demo2 1 (some sess1) 20 77 "upi",
   C10_amount_independence.2 demo2 demo3 1 sess1 20 "upi" pay_demo3_eq⟩
